import Mathlib

/-!
# FunTrip backend — formal verification of the itinerary-generation pipeline

Shallow embedding of the FunTrip trip-planning backend (Python / FastAPI /
pydantic / SQLAlchemy) in Lean 4, covering:

* the JSON-candidate extraction heuristic used on the generative model's raw
  text reply (`backend/app/services/itinerary_generator.py`, the
  `find('{') / rfind('}')` slice);
* prompt construction (`generate_itinerary_prompt`), the guest wrapper
  (`GuestTripWrapper`) and the duration computation (`get_trip_duration_days`);
* pydantic content validation of the structured itinerary document
  (`backend/app/schemas/itinerary.py`: `Activity`, `DailyPlan`,
  `ItineraryContent`);
* aggregate (cost / duration) calculation;
* the persisted and guest generation pipelines with their versioning and
  storage effects (`generate_itinerary`, `generate_itinerary_for_guest`,
  `backend/app/api/itineraries.py`);
* trip updates (`backend/app/services/trip.py`, `update_trip`).

Python strings are modelled as `List Char` where character search matters and
as `String` elsewhere; Python ints as `Int`/`Nat`; Python floats as `Rat`
(exact arithmetic; the float values exercised by the claims are small decimals
whose sums are exact in both models); `datetime.date` as a `year/month/day`
structure with the proleptic-Gregorian ordinal used by `date.toordinal`.
The external generative-model call and `json.loads` are collaborators outside
the core: pipelines take the model's reply after JSON decoding as an explicit
`Option RawItineraryContent` parameter (`none` = `json.JSONDecodeError`), and
the current clock as explicit parameters.
-/

/-! ## Section 1: response extraction
`generate_itinerary` / `generate_itinerary_for_guest` locate the JSON payload
in the model's raw text with `str.find('{')` and `str.rfind('}')` and slice.
-/

/-- The character `{` (written via its code point to keep string scanning
elsewhere simple). -/
def openBrace : Char := Char.ofNat 123

/-- The character `}`. -/
def closeBrace : Char := Char.ofNat 125

/-- Python `str.find(c)` for a single character: the lowest index at which `c`
occurs, or `-1` when it does not occur. -/
def pyFind (s : List Char) (c : Char) : Int :=
  match s with
  | [] => -1
  | x :: xs =>
      if x = c then 0
      else if pyFind xs c = -1 then -1 else pyFind xs c + 1

/-- Python `str.rfind(c)` for a single character: the highest index at which
`c` occurs, or `-1` when it does not occur. -/
def pyRfind (s : List Char) (c : Char) : Int :=
  match s with
  | [] => -1
  | x :: xs =>
      if pyRfind xs c ≠ -1 then pyRfind xs c + 1
      else if x = c then 0 else -1

/-- The JSON-candidate extraction of `generate_itinerary` (and, identically,
`generate_itinerary_for_guest`):

    json_start = generated_json_str.find('{')
    json_end = generated_json_str.rfind('}') + 1
    if json_start != -1 and json_end != -1 and json_end > json_start:
        clean_json_str = generated_json_str[json_start:json_end]
    else:
        clean_json_str = generated_json_str

The slice `s[a:b]` with `0 ≤ a` is `(s.drop a).take (b - a)`. -/
def extractJsonCandidate (s : List Char) : List Char :=
  let json_start := pyFind s openBrace
  let json_end := pyRfind s closeBrace + 1
  if json_start ≠ -1 ∧ json_end ≠ -1 ∧ json_end > json_start then
    (s.drop json_start.toNat).take (json_end - json_start).toNat
  else s

theorem pyFind_nonneg_or (s : List Char) (c : Char) :
    pyFind s c = -1 ∨ 0 ≤ pyFind s c := by
  induction s with
  | nil => exact Or.inl rfl
  | cons x xs ih =>
    by_cases hx : x = c
    · right
      simp [pyFind, hx]
    · simp only [pyFind, if_neg hx]
      by_cases h1 : pyFind xs c = -1
      · simp [h1]
      · simp only [if_neg h1]
        right
        omega

theorem pyFind_neg_one_iff (s : List Char) (c : Char) : pyFind s c = -1 ↔ c ∉ s := by
  induction s with
  | nil => simp [pyFind]
  | cons x xs ih =>
    by_cases hx : x = c
    · subst hx
      simp [pyFind]
    · simp only [pyFind, if_neg hx, List.mem_cons]
      by_cases hr : pyFind xs c = -1
      · rw [if_pos hr]
        constructor
        · intro _
          push_neg
          exact ⟨fun h => hx h.symm, ih.mp hr⟩
        · intro _
          rfl
      · simp only [if_neg hr]
        have hge : 0 ≤ pyFind xs c := (pyFind_nonneg_or xs c).resolve_left hr
        constructor
        · intro h
          exact absurd h (by omega)
        · intro h
          push_neg at h
          exact absurd (ih.mpr h.2) hr

theorem pyFind_eq_of_first (s : List Char) (c : Char) (i : Nat) (hi : i < s.length)
    (hget : s.get ⟨i, hi⟩ = c) (hpre : c ∉ s.take i) : pyFind s c = i := by
  induction s generalizing i with
  | nil => simp at hi
  | cons x xs ih =>
    cases i with
    | zero =>
      simp only [List.get] at hget
      simp [pyFind, hget]
    | succ n =>
      have hx : ¬ x = c := by
        intro h
        exact hpre (by simp [List.take_succ_cons, h])
      have hxs : c ∉ xs.take n := by
        intro h
        exact hpre (by simp [List.take_succ_cons, h])
      have hn : n < xs.length := by simpa using hi
      have hg : xs.get ⟨n, hn⟩ = c := hget
      have hfind := ih n hn hg hxs
      have hne : ¬ (pyFind xs c = -1) := by
        rw [hfind]
        omega
      simp only [pyFind, if_neg hx, if_neg hne, hfind]
      omega

theorem pyRfind_nonneg_or (s : List Char) (c : Char) :
    pyRfind s c = -1 ∨ 0 ≤ pyRfind s c := by
  induction s with
  | nil => exact Or.inl rfl
  | cons x xs ih =>
    simp only [pyRfind]
    by_cases hr : pyRfind xs c = -1
    · simp only [ne_eq, hr, not_true_eq_false, if_false]
      by_cases hx : x = c
      · simp [hx]
      · simp [hx]
    · have hge : 0 ≤ pyRfind xs c := ih.resolve_left hr
      simp only [ne_eq, hr, not_false_eq_true, if_true]
      right
      omega

theorem pyRfind_neg_one_iff (s : List Char) (c : Char) : pyRfind s c = -1 ↔ c ∉ s := by
  induction s with
  | nil => simp [pyRfind]
  | cons x xs ih =>
    simp only [pyRfind, List.mem_cons]
    by_cases hr : pyRfind xs c = -1
    · simp only [hr, ne_eq, not_true_eq_false, if_false]
      by_cases hx : x = c
      · simp only [if_pos hx]
        constructor
        · intro h
          exact absurd h (by omega)
        · intro h
          push_neg at h
          exact absurd hx.symm h.1
      · simp only [if_neg hx, true_iff]
        push_neg
        exact ⟨fun h => hx h.symm, ih.mp hr⟩
    · have hge : 0 ≤ pyRfind xs c := (pyRfind_nonneg_or xs c).resolve_left hr
      simp only [ne_eq, hr, not_false_eq_true, if_true]
      constructor
      · intro h
        exact absurd h (by omega)
      · intro h
        push_neg at h
        exact absurd (ih.mpr h.2) hr

theorem pyRfind_eq_of_last (s : List Char) (c : Char) (j : Nat) (hj : j < s.length)
    (hget : s.get ⟨j, hj⟩ = c) (hpost : c ∉ s.drop (j + 1)) : pyRfind s c = j := by
  induction s generalizing j with
  | nil => simp at hj
  | cons x xs ih =>
    cases j with
    | zero =>
      simp only [List.get] at hget
      have hxs : c ∉ xs := by simpa using hpost
      have hr : pyRfind xs c = -1 := (pyRfind_neg_one_iff xs c).mpr hxs
      simp [pyRfind, hr, hget]
    | succ n =>
      have hn : n < xs.length := by simpa using hj
      have hg : xs.get ⟨n, hn⟩ = c := hget
      have hpost' : c ∉ xs.drop (n + 1) := by
        intro h
        exact hpost (by simpa using h)
      have hfind := ih n hn hg hpost'
      have hne : ¬ pyRfind xs c = -1 := by
        rw [hfind]
        omega
      simp only [pyRfind, ne_eq, hne, not_false_eq_true, if_true, hfind]
      omega

theorem pyRfind_nonneg_of_ne (s : List Char) (c : Char) (h : ¬ pyRfind s c = -1) :
    0 ≤ pyRfind s c := (pyRfind_nonneg_or s c).resolve_left h

/-- C1: for every raw model text in which the first `{` precedes the last `}`,
the response extractor returns exactly the substring from the first `{` to the
last `}` inclusive; for every text missing either delimiter, it returns the
whole text unchanged. -/
theorem C1_response_extractor (s : List Char) :
    (∀ (i j : Nat) (hi : i < s.length) (hj : j < s.length),
        s.get ⟨i, hi⟩ = openBrace → openBrace ∉ s.take i →
        s.get ⟨j, hj⟩ = closeBrace → closeBrace ∉ s.drop (j + 1) →
        i < j →
        extractJsonCandidate s = (s.drop i).take (j + 1 - i)) ∧
    (openBrace ∉ s → extractJsonCandidate s = s) ∧
    (closeBrace ∉ s → extractJsonCandidate s = s) := by
  refine ⟨?_, ?_, ?_⟩
  · intro i j hi hj hgi hpi hgj hpj hij
    have h1 : pyFind s openBrace = i := pyFind_eq_of_first s openBrace i hi hgi hpi
    have h2 : pyRfind s closeBrace = j := pyRfind_eq_of_last s closeBrace j hj hgj hpj
    have hcond : (i : Int) ≠ -1 ∧ (j : Int) + 1 ≠ -1 ∧ (j : Int) + 1 > i := by
      refine ⟨by omega, by omega, by omega⟩
    simp only [extractJsonCandidate, h1, h2, if_pos hcond]
    have e1 : ((i : Int)).toNat = i := by omega
    have e2 : ((j : Int) + 1 - i).toNat = j + 1 - i := by omega
    rw [e1, e2]
  · intro h
    have h1 : pyFind s openBrace = -1 := (pyFind_neg_one_iff s openBrace).mpr h
    have : ¬ (pyFind s openBrace ≠ -1 ∧ pyRfind s closeBrace + 1 ≠ -1 ∧
        pyRfind s closeBrace + 1 > pyFind s openBrace) := by
      intro hc
      exact hc.1 h1
    simp only [extractJsonCandidate, if_neg this]
  · intro h
    have h2 : pyRfind s closeBrace = -1 := (pyRfind_neg_one_iff s closeBrace).mpr h
    have : ¬ (pyFind s openBrace ≠ -1 ∧ pyRfind s closeBrace + 1 ≠ -1 ∧
        pyRfind s closeBrace + 1 > pyFind s openBrace) := by
      intro hc
      rcases pyFind_nonneg_or s openBrace with h1 | h1
      · exact hc.1 h1
      · have := hc.2.2
        omega
    simp only [extractJsonCandidate, if_neg this]

/-! ## Section 2: dates and the prompt builder
`generate_itinerary_prompt` builds the model prompt from a trip-shaped record.
`datetime.date` is modelled by `PyDate`; `(end - start).days` is the
difference of proleptic-Gregorian ordinals, exactly `date.toordinal`.
-/

structure PyDate where
  year : Nat
  month : Nat
  day : Nat
deriving DecidableEq, Repr

def isLeapYear (y : Nat) : Bool :=
  (y % 4 == 0 && !(y % 100 == 0)) || y % 400 == 0

def daysInMonth (y m : Nat) : Nat :=
  if m = 2 then (if isLeapYear y then 29 else 28)
  else if m = 4 ∨ m = 6 ∨ m = 9 ∨ m = 11 then 30
  else 31

/-- Days in the year strictly before month `m` (1-based). -/
def daysBeforeMonth (y m : Nat) : Nat :=
  let base :=
    match m with
    | 1 => 0
    | 2 => 31
    | 3 => 59
    | 4 => 90
    | 5 => 120
    | 6 => 151
    | 7 => 181
    | 8 => 212
    | 9 => 243
    | 10 => 273
    | 11 => 304
    | _ => 334
  if 2 < m && isLeapYear y then base + 1 else base

/-- `datetime.date.toordinal`: day 1 is 0001-01-01 in the proleptic Gregorian
calendar. -/
def PyDate.toordinal (d : PyDate) : Nat :=
  365 * (d.year - 1) + (d.year - 1) / 4 - (d.year - 1) / 100 + (d.year - 1) / 400
    + daysBeforeMonth d.year d.month + d.day

/-- `get_trip_duration_days(start_date, end_date)`:
`(end_date - start_date).days + 1`. -/
def get_trip_duration_days (start_date end_date : PyDate) : Int :=
  ((end_date.toordinal : Int) - (start_date.toordinal : Int)) + 1

/-- `d + timedelta(days=1)` on calendar components. -/
def PyDate.nextDay (d : PyDate) : PyDate :=
  if d.day < daysInMonth d.year d.month then ⟨d.year, d.month, d.day + 1⟩
  else if d.month < 12 then ⟨d.year, d.month + 1, 1⟩
  else ⟨d.year + 1, 1, 1⟩

def padZero (width : Nat) (n : Nat) : String :=
  let s := toString n
  if s.length < width then String.mk (List.replicate (width - s.length) '0') ++ s
  else s

/-- `d.strftime('%Y-%m-%d')`. -/
def PyDate.strftimeYMD (d : PyDate) : String :=
  padZero 4 d.year ++ "-" ++ padZero 2 d.month ++ "-" ++ padZero 2 d.day

def digitsToNat (cs : List Char) : Option Nat :=
  if cs ≠ [] ∧ cs.all Char.isDigit then
    some (cs.foldl (fun acc c => acc * 10 + (c.toNat - 48)) 0)
  else none

/-- Splitting a character list at each `-` (code point 45). -/
def splitDash : List Char → List (List Char)
  | [] => [[]]
  | c :: rest =>
    match splitDash rest with
    | [] => [[]]
    | g :: gs => if c = Char.ofNat 45 then [] :: g :: gs else (c :: g) :: gs

/-- `datetime.strptime(s, '%Y-%m-%d').date()`, as used by `GuestTripWrapper`:
a 4-digit year and 1-2 digit month/day joined by `-`, with calendar-valid
ranges; `none` models the `ValueError` strptime raises otherwise. -/
def parseDateYMD (s : String) : Option PyDate :=
  match splitDash s.toList with
  | [ys, ms, ds] =>
      match digitsToNat ys, digitsToNat ms, digitsToNat ds with
      | some y, some m, some d =>
          if ys.length = 4 ∧ 1 ≤ ms.length ∧ ms.length ≤ 2 ∧ 1 ≤ ds.length ∧ ds.length ≤ 2
              ∧ 1 ≤ m ∧ m ≤ 12 ∧ 1 ≤ d ∧ d ≤ daysInMonth y m then
            some ⟨y, m, d⟩
          else none
      | _, _, _ => none
  | _ => none

/-- Python `f"{x:.2f}"`, modelled as exact decimal rounding to two places
(the claims never exercise a value where binary-float rounding differs). -/
def formatFixed2 (q : Rat) : String :=
  let cents : Int := Int.floor (q * 100 + 1 / 2)
  toString (cents / 100) ++ "." ++ padZero 2 (cents % 100).toNat

/-- The trip-shaped view `generate_itinerary_prompt` reads: the duck-typed
fields shared by the stored SQLAlchemy `Trip` and `GuestTripWrapper`. -/
structure TripView where
  name : String
  city : String
  stay_address : Option String
  start_date : PyDate
  end_date : PyDate
  num_travelers : Nat
  budget_per_person : Option Rat
  activity_preferences : Option (List String)
deriving DecidableEq, Repr

/-- The `preferences_str` local of `generate_itinerary_prompt`: built only
when `trip.activity_preferences` is truthy (not `None`, not `[]`) and
non-empty. -/
def preferencesStr (prefs : Option (List String)) : String :=
  match prefs with
  | some preferences_list =>
      if preferences_list ≠ [] then
        if 0 < preferences_list.length then
          "User activity preferences: " ++ String.intercalate ", " preferences_list ++ ". "
        else ""
      else ""
  | none => ""

/-- The `budget_str` local: `float(budget_per_person) * num_travelers`
formatted to two decimals when a budget is supplied. -/
def budgetStr (budget_per_person : Option Rat) (num_travelers : Nat) : String :=
  match budget_per_person with
  | some b =>
      "Total trip budget for all travelers: $" ++ formatFixed2 (b * num_travelers) ++ " USD. "
  | none => ""

/-- The `stay_address_str` local: present when the address is not `None` and
does not strip to the empty string. -/
def stayAddressStr (stay_address : Option String) : String :=
  match stay_address with
  | some stay_address_value =>
      if stay_address_value.trim ≠ "" then
        "The user is staying at " ++ stay_address_value
          ++ ". Please factor this location into daily travel logistics and start/end points for activities."
      else ""
  | none => ""

/-- The `accommodation_location_example` local: `f"at {trip.stay_address}"`
when the address is truthy and does not strip to empty, else the fixed
fallback. -/
def accommodationLocationExample (stay_address : Option String) : String :=
  match stay_address with
  | some v => if v ≠ "" ∧ v.trim ≠ "" then "at " ++ v else "General city area"
  | none => "General city area"

/-! The f-string template of `generate_itinerary_prompt`, split at its
interpolation points.  Literal braces (Python `{{` / `}}`) are written with
`\x7b` / `\x7d` escapes, apostrophes with `\x27`; the byte content is exactly
the Python template's. -/

def promptSeg1 : String :=
  "\n    You are an expert AI trip planner. Your task is to create a detailed, daily itinerary for a trip based on the provided user details.\n    Today\x27s Date: "

def promptSeg2 : String :=
  "\n    \n    **Trip Details:**\n    - Trip Name: \""

def promptSeg3 : String :=
  "\"\n    - Destination City: \""

def promptSeg4 : String :=
  "\"\n    - Number of Travelers: "

def promptSeg5 : String :=
  "\n    - Start Date: "

def promptSeg6 : String :=
  "\n    - End Date: "

def promptSeg7 : String :=
  "\n    - Trip Duration: "

def promptSeg8 : String :=
  " days\n    "

def promptSeg9 : String :=
  "\n    "

def promptSeg10 : String :=
  "\n\n    **Important Instructions for Itinerary Generation:**\n    1.  **Natural Language Only:** Write descriptions that sound like a high-quality travel guide. **Do NOT** explicitly mention that an activity was chosen because of a specific user preference. Avoid repetitive use of preference keywords (e.g., do not keep saying \"perfect for photography\" or \"great for history lovers\").\n        * **BAD:** \"Visit the ancient palace, which is perfect for your history preference.\"\n        * **BAD:** \"Walk down the street, ideal for photography.\"\n        * **GOOD:** \"Explore the ancient palace and admire its centuries-old architecture.\"\n        * **GOOD:** \"Stroll down the vibrant street, capturing the colorful lights and bustling atmosphere.\"\n    2.  **Output Format:** Your entire response MUST be a valid JSON object strictly adhering to the following Pydantic schema structure. Do NOT include any additional text, markdown, or commentary outside of the JSON. Ensure all required fields are present and types match.\n    3.  **Daily Plans:** Provide a plan for each day of the trip ("

def promptSeg11 : String :=
  " days).\n    4.  **Activities:** Each day must have a list of activities.\n        * `time`: **Provide specific times in 12-hour format (e.g., \x279:00 AM\x27, \x271:30 PM\x27, \x277:00 PM\x27). Do NOT use general periods like Morning/Afternoon/Lunch/Evening/Night.**\n        * `name`: A concise name for the activity.\n        * `description`: A brief (1-2 sentence) description.\n        * `location`: A general location (e.g., \"Eiffel Tower area\") or a specific address if a well-known landmark. Assume travel time between locations.\n        * `estimated_duration_minutes`: Provide a reasonable estimate (integer, >= 5).\n        * `transportation`: Suggest how to get there (e.g., \"Walk\", \"Metro\", \"Taxi\", \"Bus\", \"Uber/Lyft\").\n        * `cost_usd`: Provide an estimated cost in USD (float, >= 0) if applicable (e.g., for tickets, meals, transport). Use 0.0 for free activities.\n    5.  **Dates:** Ensure the `day_date` in each `DailyPlan` is accurate and sequential starting from the `trip.start_date`. **Crucially, ensure `day_date` is formatted as a strict \"YYYY-MM-DD\" string.**\n    6.  **Personalization (Implicit):** Use the `activity_preferences` to **select** the types of activities, but do not explicitly label them in the final text.\n    7.  **Budget Constraint:** The **total estimated cost of the itinerary MUST NOT exceed the total trip budget**. It should ideally stay within or just below the total budget.\n    8.  **Logistics:** Consider distances between attractions within a day. Group activities geographically to minimize travel.\n    9.  **Realism:** Suggest realistic opening hours, typical durations, and general costs for well-known attractions. If specific times/costs are unknown, provide reasonable estimates or leave optional fields `null`.\n    10.  **Comprehensive Itinerary:** Include typical travel events like checking into accommodation (if applicable) and major meals (breakfast, lunch, dinner) where appropriate.\n\n    **Output Schema (Strictly follow this structure. Do not deviate.):**\n    ```json\n    \x7b\n      \"title\": \"A creative, fun, and descriptive title based on the itinerary\x27s main themes and highlights (e.g., \x27Parisian Romance & Art Extravaganza\x27)\",\n      \"duration_days\": "

def promptSeg12 : String :=
  ",\n      \"daily_plans\": [\n        \x7b\n          \"day_number\": 1,\n          \"day_date\": \""

def promptSeg13 : String :=
  "\",\n          \"theme\": \"Arrival and Exploration\",\n          \"activities\": [\n            \x7b\n              \"time\": \"3:00 PM\",\n              \"name\": \"Check-in at accommodation\",\n              \"description\": \"Settle into your accommodation.\",\n              \"location\": \""

def promptSeg14 : String :=
  "\",\n              \"estimated_duration_minutes\": 60,\n              \"transportation\": \"Taxi/Public Transport from Airport\",\n              \"cost_usd\": 0.0\n            \x7d,\n            \x7b\n              \"time\": \"7:30 PM\",\n              \"name\": \"Welcome Dinner\",\n              \"description\": \"Enjoy a casual dinner at a local restaurant.\",\n              \"location\": \"Near your accommodation\",\n              \"estimated_duration_minutes\": 90,\n              \"transportation\": \"Walk\",\n              \"cost_usd\": 30.0\n            \x7d\n          ]\n        \x7d,\n        \x7b\n          \"day_number\": 2,\n          \"day_date\": \""

def promptSeg15 : String :=
  "\",\n          \"theme\": \"Culture and Landmarks\",\n          \"activities\": [\n            \x7b\n              \"time\": \"9:00 AM\",\n              \"name\": \"Main City Landmark (e.g., Museum, Historical Site)\",\n              \"description\": \"Explore the city\x27s main cultural attraction.\",\n              \"location\": \"Specific address or landmark name\",\n              \"estimated_duration_minutes\": 180,\n              \"transportation\": \"Public Transport\",\n              \"cost_usd\": 20.0\n            \x7d,\n            \x7b\n              \"time\": \"12:30 PM\",\n              \"name\": \"Local Cafe\",\n              \"description\": \"Grab a quick and authentic lunch.\",\n              \"location\": \"Near landmark\",\n              \"estimated_duration_minutes\": 60,\n              \"transportation\": \"Walk\",\n              \"cost_usd\": 15.0\n            \x7d\n          ]\n        \x7d\n      ],\n      \"notes\": \"General tips for your trip, e.g., currency, emergency numbers, local customs. Ensure this is concise.\"\n    \x7d\n    ```\n    Ensure the `day_date` fields are strictly `YYYY-MM-DD` strings. Provide actual dates based on the trip\x27s start date. The `title`, `duration_days`, `daily_plans`, and `notes` fields must always be present in the final JSON output.\n    "

/-- `generate_itinerary_prompt(trip)`: the PromptBuilder.  Both the persisted
flow (stored `Trip`) and the guest flow (through `GuestTripWrapper`) call this
one function.  `datetime.now().strftime('%Y-%m-%d')` is the explicit `today`
parameter.  The `isinstance(..., str)` re-parsing branch is dead in both
flows (the stored model carries `date` objects and `GuestTripWrapper` has
already parsed the guest's strings), so dates arrive as `PyDate` values.
There is no check that `end_date ≥ start_date`: the function is total and
never raises for any date ordering. -/
def generate_itinerary_prompt (today : String) (trip : TripView) : String :=
  let start_dt := trip.start_date
  let end_dt := trip.end_date
  let duration_days := get_trip_duration_days start_dt end_dt
  let preferences_str := preferencesStr trip.activity_preferences
  let budget_str := budgetStr trip.budget_per_person trip.num_travelers
  let stay_address_str := stayAddressStr trip.stay_address
  let accommodation_location_example := accommodationLocationExample trip.stay_address
  promptSeg1 ++ (today ++ (promptSeg2 ++ (trip.name ++ (promptSeg3 ++ (trip.city ++ (promptSeg4 ++
    (toString trip.num_travelers ++ (promptSeg5 ++ (start_dt.strftimeYMD ++ (promptSeg6 ++
    (end_dt.strftimeYMD ++ (promptSeg7 ++ (toString duration_days ++ (promptSeg8 ++
    (preferences_str ++ (budget_str ++ (promptSeg9 ++ (stay_address_str ++ (promptSeg10 ++
    (toString duration_days ++ (promptSeg11 ++ (toString duration_days ++ (promptSeg12 ++
    (start_dt.strftimeYMD ++ (promptSeg13 ++ (accommodation_location_example ++ (promptSeg14 ++
    ((start_dt.nextDay).strftimeYMD ++ (promptSeg15)))))))))))))))))))))))))))))

/-- The stored SQLAlchemy `Trip` model (`backend/app/models/trip.py`):
surrogate id, owning user, and the fields PromptBuilder reads.
`budget_per_person` (Float, nullable) is a `Rat`; `activity_preferences`
(JSON, nullable) a nullable list of tags. -/
structure Trip where
  id : Nat
  user_id : Nat
  name : String
  city : String
  stay_address : Option String
  start_date : PyDate
  end_date : PyDate
  num_travelers : Nat
  budget_per_person : Option Rat
  activity_preferences : Option (List String)
deriving DecidableEq, Repr

/-- The duck-typed view of a stored trip, as `generate_itinerary_prompt`
reads it directly off the model object. -/
def Trip.view (t : Trip) : TripView :=
  { name := t.name, city := t.city, stay_address := t.stay_address,
    start_date := t.start_date, end_date := t.end_date,
    num_travelers := t.num_travelers, budget_per_person := t.budget_per_person,
    activity_preferences := t.activity_preferences }

/-- The guest request body (`GuestTripRequest` in
`backend/app/api/itineraries.py`): dates arrive as ISO strings and
`activity_preferences` defaults to `[]` (never `None`). -/
structure GuestTripRequest where
  name : String
  city : String
  stay_address : Option String
  start_date : String
  end_date : String
  num_travelers : Nat
  budget_per_person : Option Rat
  activity_preferences : List String
deriving DecidableEq, Repr

/-- `GuestTripWrapper.__init__`: parses the guest's ISO date strings with
`strptime('%Y-%m-%d')` and copies every other field unchanged, so the result
mimics the SQLAlchemy `Trip` for `generate_itinerary_prompt`.  `none` models
the `ValueError` strptime raises on a malformed date. -/
def GuestTripWrapper (trip_data : GuestTripRequest) : Option TripView :=
  match parseDateYMD trip_data.start_date, parseDateYMD trip_data.end_date with
  | some s, some e =>
      some { name := trip_data.name, city := trip_data.city,
             stay_address := trip_data.stay_address,
             start_date := s, end_date := e,
             num_travelers := trip_data.num_travelers,
             budget_per_person := trip_data.budget_per_person,
             activity_preferences := some trip_data.activity_preferences }
  | _, _ => none

theorem preferencesStr_some_getD (o : Option (List String)) :
    preferencesStr (some (o.getD [])) = preferencesStr o := by
  cases o with
  | none => simp [preferencesStr]
  | some l => rfl

theorem prompt_eq_of_view_fields (today : String) (v w : TripView)
    (h1 : v.name = w.name) (h2 : v.city = w.city) (h3 : v.stay_address = w.stay_address)
    (h4 : v.start_date = w.start_date) (h5 : v.end_date = w.end_date)
    (h6 : v.num_travelers = w.num_travelers)
    (h7 : v.budget_per_person = w.budget_per_person)
    (h8 : preferencesStr v.activity_preferences = preferencesStr w.activity_preferences) :
    generate_itinerary_prompt today v = generate_itinerary_prompt today w := by
  simp only [generate_itinerary_prompt, h1, h2, h3, h4, h5, h6, h7, h8]

/-- C2 (amended): prompt construction does not validate the date order and
never fails: for every trip-like input with `end_date` strictly before
`start_date` it still produces the prompt (beginning with the fixed header),
computing `duration_days = (end_date - start_date).days + 1 ≤ 0`.  No
`InputError` exists in this code path (`get_trip_duration_days` and
`generate_itinerary_prompt` contain no date-order check or raise). -/
theorem C2_prompt_builder_total (today : String) (t : TripView)
    (h : t.end_date.toordinal < t.start_date.toordinal) :
    get_trip_duration_days t.start_date t.end_date ≤ 0 ∧
    ∃ r, generate_itinerary_prompt today t = promptSeg1 ++ r := by
  constructor
  · unfold get_trip_duration_days
    omega
  · exact ⟨_, rfl⟩

/-- C2 counterexample to the claim as stated: a concrete trip whose end date
(2025-09-01) precedes its start date (2025-09-02).  Prompt construction does
not fail with an InputError: it returns a prompt (starting with the standard
header) whose computed duration is `0`. -/
def exBadDatesTrip : TripView :=
  { name := "Backwards", city := "Paris", stay_address := none,
    start_date := ⟨2025, 9, 2⟩, end_date := ⟨2025, 9, 1⟩,
    num_travelers := 1, budget_per_person := none, activity_preferences := none }

theorem C2_counterexample :
    exBadDatesTrip.end_date.toordinal < exBadDatesTrip.start_date.toordinal ∧
    get_trip_duration_days exBadDatesTrip.start_date exBadDatesTrip.end_date = 0 ∧
    ∃ r, generate_itinerary_prompt "2026-10-12" exBadDatesTrip = promptSeg1 ++ r :=
  ⟨by decide, by decide, ⟨_, rfl⟩⟩

theorem C2_witness :
    exBadDatesTrip.end_date.toordinal < exBadDatesTrip.start_date.toordinal ∧
    (get_trip_duration_days exBadDatesTrip.start_date exBadDatesTrip.end_date ≤ 0 ∧
      ∃ r, generate_itinerary_prompt "2026-10-12" exBadDatesTrip = promptSeg1 ++ r) :=
  ⟨by decide, C2_prompt_builder_total "2026-10-12" exBadDatesTrip (by decide)⟩

/-- C8: the guest flow (through `GuestTripWrapper`) and the persisted flow
feed the one shared `generate_itinerary_prompt`; for equivalent field values
(same name, city, stay address, dates, traveler count, budget, preference
tags — a stored trip with `activity_preferences = None` is equivalent to a
guest list `[]`, both being falsy) and the same current date, the prompts are
byte-identical strings. -/
theorem C8_guest_prompt_equivalence (trip : Trip) (g : GuestTripRequest)
    (today : String) (view : TripView)
    (hname : g.name = trip.name) (hcity : g.city = trip.city)
    (hstay : g.stay_address = trip.stay_address)
    (hstart : parseDateYMD g.start_date = some trip.start_date)
    (hend : parseDateYMD g.end_date = some trip.end_date)
    (hnum : g.num_travelers = trip.num_travelers)
    (hbudget : g.budget_per_person = trip.budget_per_person)
    (hprefs : g.activity_preferences = trip.activity_preferences.getD [])
    (hw : GuestTripWrapper g = some view) :
    generate_itinerary_prompt today view = generate_itinerary_prompt today trip.view := by
  rw [GuestTripWrapper, hstart, hend] at hw
  have hv := (Option.some.injEq _ _).mp hw
  subst hv
  apply prompt_eq_of_view_fields
  · exact hname
  · exact hcity
  · exact hstay
  · rfl
  · rfl
  · exact hnum
  · exact hbudget
  · show preferencesStr (some g.activity_preferences) = preferencesStr trip.activity_preferences
    rw [hprefs]
    exact preferencesStr_some_getD trip.activity_preferences

/-! ## Section 3: content validation
`backend/app/schemas/itinerary.py`: pydantic models `Activity`, `DailyPlan`,
`ItineraryContent`.  A raw document (the result of `json.loads`, already
typed) is validated field-by-field; pydantic collects every violation
(field path + reason) and either returns the whole parsed model or raises a
`ValidationError` carrying the list — no partial acceptance.  `day_date`
values arrive as already-parsed dates (pydantic's ISO-date parsing of the
string field is outside the claims). -/

structure Activity where
  time : String
  name : String
  description : Option String
  location : Option String
  estimated_duration_minutes : Option Int
  transportation : Option String
  cost_usd : Option Rat
deriving DecidableEq, Repr

instance : Inhabited Activity :=
  ⟨{ time := "", name := "", description := none, location := none,
     estimated_duration_minutes := none, transportation := none, cost_usd := none }⟩

structure DailyPlan where
  day_number : Int
  day_date : PyDate
  theme : Option String
  activities : List Activity
deriving DecidableEq, Repr

structure ItineraryContent where
  title : String
  duration_days : Int
  daily_plans : List DailyPlan
  notes : Option String
deriving DecidableEq, Repr

/-- A raw activity object: present/absent fields of the decoded JSON. -/
structure RawActivity where
  time : Option String
  name : Option String
  description : Option String
  location : Option String
  estimated_duration_minutes : Option Int
  transportation : Option String
  cost_usd : Option Rat
deriving DecidableEq, Repr

structure RawDailyPlan where
  day_number : Option Int
  day_date : Option PyDate
  theme : Option String
  activities : Option (List RawActivity)
deriving DecidableEq, Repr

structure RawItineraryContent where
  title : Option String
  duration_days : Option Int
  daily_plans : Option (List RawDailyPlan)
  notes : Option String
deriving DecidableEq, Repr

/-- Violations pydantic reports for one activity: `time`/`name` required
(no default), `estimated_duration_minutes` optional with `ge=5`, `cost_usd`
optional with `ge=0`. -/
def activityErrors (a : RawActivity) : List String :=
  (match a.time with
    | none => ["time: Field required"]
    | some _ => []) ++
  (match a.name with
    | none => ["name: Field required"]
    | some _ => []) ++
  (match a.estimated_duration_minutes with
    | some d => if d < 5 then ["estimated_duration_minutes: Input should be greater than or equal to 5"] else []
    | none => []) ++
  (match a.cost_usd with
    | some c => if c < 0 then ["cost_usd: Input should be greater than or equal to 0"] else []
    | none => [])

/-- Violations for one daily plan: `day_number` required with `ge=1`,
`day_date` required, `activities` required, plus the nested activity
violations. -/
def planErrors (p : RawDailyPlan) : List String :=
  (match p.day_number with
    | none => ["day_number: Field required"]
    | some n => if n < 1 then ["day_number: Input should be greater than or equal to 1"] else []) ++
  (match p.day_date with
    | none => ["day_date: Field required"]
    | some _ => []) ++
  (match p.activities with
    | none => ["activities: Field required"]
    | some l => (l.map activityErrors).join)

/-- Violations for the whole document: `title` required, `duration_days`
required with `ge=1`, `daily_plans` required, plus nested plan violations.
`notes` is optional and unconstrained.  There is no validator relating
`duration_days` to the number of daily plans. -/
def contentErrors (c : RawItineraryContent) : List String :=
  (match c.title with
    | none => ["title: Field required"]
    | some _ => []) ++
  (match c.duration_days with
    | none => ["duration_days: Field required"]
    | some d => if d < 1 then ["duration_days: Input should be greater than or equal to 1"] else []) ++
  (match c.daily_plans with
    | none => ["daily_plans: Field required"]
    | some l => (l.map planErrors).join)

/-- Totalised conversion of a raw activity whose errors are empty; the `getD`
fall-backs are unreachable on the success path (emptiness of the error list
forces the required fields present). -/
def rawActivityToActivity (a : RawActivity) : Activity :=
  { time := a.time.getD "", name := a.name.getD "",
    description := a.description, location := a.location,
    estimated_duration_minutes := a.estimated_duration_minutes,
    transportation := a.transportation, cost_usd := a.cost_usd }

def rawPlanToPlan (p : RawDailyPlan) : DailyPlan :=
  { day_number := p.day_number.getD 1, day_date := p.day_date.getD ⟨1, 1, 1⟩,
    theme := p.theme, activities := (p.activities.getD []).map rawActivityToActivity }

/-- `ItineraryContent.model_validate(itinerary_data_dict)`: succeeds with the
parsed model exactly when no field violation exists, otherwise raises a
`ValidationError` carrying the whole violation list (all-or-nothing). -/
def ItineraryContent.model_validate (c : RawItineraryContent) :
    Except (List String) ItineraryContent :=
  match c.title, c.duration_days, c.daily_plans with
  | some t, some d, some l =>
      if contentErrors c = [] then
        .ok { title := t, duration_days := d, daily_plans := l.map rawPlanToPlan,
              notes := c.notes }
      else .error (contentErrors c)
  | _, _, _ => .error (contentErrors c)

/-- The spec's acceptance condition, written from its words: every required
field present and the numeric constraints satisfied (activity duration ≥ 5,
cost ≥ 0, `duration_days` ≥ 1, `day_number` ≥ 1). -/
def specValidActivity (a : RawActivity) : Bool :=
  a.time.isSome && a.name.isSome &&
  (match a.estimated_duration_minutes with
    | some d => decide (5 ≤ d)
    | none => true) &&
  (match a.cost_usd with
    | some c => decide (0 ≤ c)
    | none => true)

def specValidPlan (p : RawDailyPlan) : Bool :=
  (match p.day_number with
    | some n => decide (1 ≤ n)
    | none => false) &&
  p.day_date.isSome &&
  (match p.activities with
    | some l => l.all specValidActivity
    | none => false)

def specValidItineraryContent (c : RawItineraryContent) : Bool :=
  c.title.isSome &&
  (match c.duration_days with
    | some d => decide (1 ≤ d)
    | none => false) &&
  (match c.daily_plans with
    | some l => l.all specValidPlan
    | none => false)

theorem join_eq_nil_iff {α : Type} (L : List (List α)) :
    L.join = [] ↔ ∀ l ∈ L, l = [] := by
  induction L with
  | nil => simp
  | cons x xs ih => simp [List.join, ih]

theorem ite_singleton_nil_iff {P : Prop} [Decidable P] (s : String) :
    (if P then [s] else []) = [] ↔ ¬ P := by
  by_cases h : P <;> simp [h]

theorem activityErrors_nil_iff (a : RawActivity) :
    activityErrors a = [] ↔ specValidActivity a = true := by
  unfold activityErrors specValidActivity
  cases a.time <;> cases a.name <;>
    cases a.estimated_duration_minutes <;> cases a.cost_usd <;>
    simp [ite_singleton_nil_iff, not_lt]

theorem planErrors_nil_iff (p : RawDailyPlan) :
    planErrors p = [] ↔ specValidPlan p = true := by
  unfold planErrors specValidPlan
  cases p.day_number <;> cases p.day_date <;> cases p.activities <;>
    simp [ite_singleton_nil_iff, not_lt, join_eq_nil_iff, List.all_eq_true,
      activityErrors_nil_iff]

theorem contentErrors_nil_iff (c : RawItineraryContent) :
    contentErrors c = [] ↔ specValidItineraryContent c = true := by
  unfold contentErrors specValidItineraryContent
  cases c.title <;> cases c.duration_days <;> cases c.daily_plans <;>
    simp [ite_singleton_nil_iff, not_lt, join_eq_nil_iff, List.all_eq_true,
      planErrors_nil_iff]

theorem model_validate_isOk_iff (c : RawItineraryContent) :
    (ItineraryContent.model_validate c).isOk = true ↔ contentErrors c = [] := by
  unfold ItineraryContent.model_validate
  cases ht : c.title <;> cases hd : c.duration_days <;> cases hp : c.daily_plans <;>
    simp only [ht, hd, hp] <;>
    first
      | (have hne : contentErrors c ≠ [] := by simp [contentErrors, ht, hd, hp]
         simp [Except.isOk, Except.toBool, hne])
      | (by_cases he : contentErrors c = [] <;> simp [he, Except.isOk, Except.toBool])

theorem model_validate_spec (c : RawItineraryContent) :
    (ItineraryContent.model_validate c).isOk = specValidItineraryContent c := by
  by_cases h : specValidItineraryContent c = true
  · rw [h]
    exact (model_validate_isOk_iff c).mpr ((contentErrors_nil_iff c).mpr h)
  · have hb : specValidItineraryContent c = false := by
      revert h
      cases specValidItineraryContent c <;> simp
    rw [hb]
    have : ¬ (ItineraryContent.model_validate c).isOk = true := by
      intro hok
      exact h ((contentErrors_nil_iff c).mp ((model_validate_isOk_iff c).mp hok))
    revert this
    cases (ItineraryContent.model_validate c).isOk <;> simp

theorem model_validate_error_of_invalid (c : RawItineraryContent)
    (h : specValidItineraryContent c = false) :
    ItineraryContent.model_validate c = .error (contentErrors c) ∧ contentErrors c ≠ [] := by
  have hne : contentErrors c ≠ [] := by
    intro hnil
    rw [(contentErrors_nil_iff c).mp hnil] at h
    cases h
  refine ⟨?_, hne⟩
  unfold ItineraryContent.model_validate
  cases ht : c.title <;> cases hd : c.duration_days <;> cases hp : c.daily_plans <;>
    simp only [ht, hd, hp] <;> simp [hne]

/-- C4: content validation accepts a raw document exactly when every required
field is present and every numeric constraint holds (activity
`estimated_duration_minutes ≥ 5` when present, `cost_usd ≥ 0` when present,
`duration_days ≥ 1`, `day_number ≥ 1`), and acceptance is all-or-nothing: an
invalid document yields a single failure carrying a non-empty list of
field violations, never a partially accepted document. -/
theorem C4_validation_all_or_nothing (c : RawItineraryContent) :
    ((ItineraryContent.model_validate c).isOk = specValidItineraryContent c) ∧
    (specValidItineraryContent c = false →
      ∃ errs, ItineraryContent.model_validate c = .error errs ∧ errs ≠ []) :=
  ⟨model_validate_spec c, fun h =>
    ⟨contentErrors c, (model_validate_error_of_invalid c h).1,
      (model_validate_error_of_invalid c h).2⟩⟩

/-- A well-formed activity used by the concrete documents below. -/
def exActivityOk : RawActivity :=
  { time := some "9:00 AM", name := some "City walk", description := none,
    location := none, estimated_duration_minutes := some 30,
    transportation := none, cost_usd := some 10 }

def exPlanOk : RawDailyPlan :=
  { day_number := some 1, day_date := some ⟨2025, 9, 1⟩, theme := none,
    activities := some [exActivityOk] }

/-- A document whose `duration_days` (2) disagrees with its number of daily
plans (1) while every per-field constraint holds. -/
def exMismatchDoc : RawItineraryContent :=
  { title := some "Two days on paper, one in plan", duration_days := some 2,
    daily_plans := some [exPlanOk], notes := none }

/-- C3 counterexample: the claim says a document whose `duration_days` does
not equal the number of `daily_plans` entries is rejected; on this concrete
document (duration_days = 2, one daily plan) `ItineraryContent.model_validate`
succeeds — `ItineraryContent` has no validator relating the two fields. -/
theorem C3_counterexample :
    exMismatchDoc.duration_days = some 2 ∧
    exMismatchDoc.daily_plans.map List.length = some 1 ∧
    (ItineraryContent.model_validate exMismatchDoc).isOk = true :=
  ⟨rfl, rfl, by decide⟩

/-- C3 (amended): content validation checks only per-field constraints and
never compares `duration_days` with the number of `daily_plans`; a document
whose `duration_days` differs from the plan count is accepted whenever the
per-field constraints hold. -/
theorem C3_amended_no_count_check (c : RawItineraryContent) (d : Int)
    (ps : List RawDailyPlan) (hd : c.duration_days = some d)
    (hp : c.daily_plans = some ps) (hmismatch : d ≠ ps.length)
    (hfields : specValidItineraryContent c = true) :
    (ItineraryContent.model_validate c).isOk = true :=
  (model_validate_isOk_iff c).mpr ((contentErrors_nil_iff c).mpr hfields)

theorem C3_witness :
    (ItineraryContent.model_validate exMismatchDoc).isOk = true :=
  C3_amended_no_count_check exMismatchDoc 2 [exPlanOk] rfl rfl (by decide) (by decide)

/-! ## Section 4: aggregate calculation
The totals loop of `generate_itinerary` (`is not None` guards) and of
`generate_itinerary_for_guest` (bare truthiness guards, which additionally
skip a 0 value — contributing the same 0 to the sum). -/

/-- One iteration of the persisted flow's totals loop:

    if activity.cost_usd is not None:
        total_cost += activity.cost_usd
    if activity.estimated_duration_minutes is not None:
        total_duration += activity.estimated_duration_minutes
-/
def addActivityTotals (acc : Rat × Int) (activity : Activity) : Rat × Int :=
  let acc1 := match activity.cost_usd with
    | some c => (acc.1 + c, acc.2)
    | none => acc
  match activity.estimated_duration_minutes with
  | some d => (acc1.1, acc1.2 + d)
  | none => acc1

/-- The totals of `generate_itinerary`, starting from
`total_cost = 0.0`, `total_duration = 0` and iterating over every day's
activities. -/
def calcTotals (content : ItineraryContent) : Rat × Int :=
  content.daily_plans.foldl
    (fun acc daily_plan => daily_plan.activities.foldl addActivityTotals acc) (0, 0)

/-- One iteration of the guest flow's totals loop: `if activity.cost_usd:`
and `if activity.estimated_duration_minutes:` — Python truthiness skips both
`None` and `0`. -/
def addActivityTotalsGuest (acc : Rat × Int) (activity : Activity) : Rat × Int :=
  let acc1 := match activity.cost_usd with
    | some c => if c = 0 then acc else (acc.1 + c, acc.2)
    | none => acc
  match activity.estimated_duration_minutes with
  | some d => if d = 0 then acc1 else (acc1.1, acc1.2 + d)
  | none => acc1

/-- The totals of `generate_itinerary_for_guest`. -/
def calcTotalsGuest (content : ItineraryContent) : Rat × Int :=
  content.daily_plans.foldl
    (fun acc daily_plan => daily_plan.activities.foldl addActivityTotalsGuest acc) (0, 0)

/-- All activities of a document, in document order. -/
def allActivities (content : ItineraryContent) : List Activity :=
  content.daily_plans.bind (fun daily_plan => daily_plan.activities)

theorem foldl_addActivityTotals (l : List Activity) (acc : Rat × Int) :
    l.foldl addActivityTotals acc =
      (acc.1 + (l.map (fun a => a.cost_usd.getD 0)).sum,
       acc.2 + (l.map (fun a => a.estimated_duration_minutes.getD 0)).sum) := by
  induction l generalizing acc with
  | nil => simp
  | cons a l ih =>
    simp only [List.foldl_cons, ih, List.map_cons, List.sum_cons]
    cases hc : a.cost_usd <;> cases hd : a.estimated_duration_minutes <;>
      simp [addActivityTotals, hc, hd, add_assoc]

theorem foldl_addActivityTotalsGuest (l : List Activity) (acc : Rat × Int) :
    l.foldl addActivityTotalsGuest acc =
      (acc.1 + (l.map (fun a => a.cost_usd.getD 0)).sum,
       acc.2 + (l.map (fun a => a.estimated_duration_minutes.getD 0)).sum) := by
  induction l generalizing acc with
  | nil => simp
  | cons a l ih =>
    simp only [List.foldl_cons, ih, List.map_cons, List.sum_cons]
    cases hc : a.cost_usd with
    | none =>
      cases hd : a.estimated_duration_minutes with
      | none => simp [addActivityTotalsGuest, hc, hd, add_assoc]
      | some d =>
        by_cases hd0 : d = 0 <;>
          simp [addActivityTotalsGuest, hc, hd, hd0, add_assoc]
    | some c =>
      cases hd : a.estimated_duration_minutes with
      | none =>
        by_cases hc0 : c = 0 <;>
          simp [addActivityTotalsGuest, hc, hd, hc0, add_assoc]
      | some d =>
        by_cases hc0 : c = 0 <;> by_cases hd0 : d = 0 <;>
          simp [addActivityTotalsGuest, hc, hd, hc0, hd0, add_assoc]

theorem foldl_plans_totals (ps : List DailyPlan) (acc : Rat × Int) :
    ps.foldl (fun acc daily_plan => daily_plan.activities.foldl addActivityTotals acc) acc =
      (acc.1 + ((ps.bind (fun p => p.activities)).map (fun a => a.cost_usd.getD 0)).sum,
       acc.2 + ((ps.bind (fun p => p.activities)).map
         (fun a => a.estimated_duration_minutes.getD 0)).sum) := by
  induction ps generalizing acc with
  | nil => simp
  | cons p ps ih =>
    rw [List.foldl_cons, foldl_addActivityTotals, ih]
    simp [List.map_append, List.sum_append, add_assoc]

theorem foldl_plans_totals_guest (ps : List DailyPlan) (acc : Rat × Int) :
    ps.foldl (fun acc daily_plan => daily_plan.activities.foldl addActivityTotalsGuest acc) acc =
      (acc.1 + ((ps.bind (fun p => p.activities)).map (fun a => a.cost_usd.getD 0)).sum,
       acc.2 + ((ps.bind (fun p => p.activities)).map
         (fun a => a.estimated_duration_minutes.getD 0)).sum) := by
  induction ps generalizing acc with
  | nil => simp
  | cons p ps ih =>
    rw [List.foldl_cons, foldl_addActivityTotalsGuest, ih]
    simp [List.map_append, List.sum_append, add_assoc]

/-- The concrete document of the spec's test: two days whose activities cost
`[10.0, None, 5.0]` and last `[30, 60, None]` minutes. -/
def exTwoDayContent : ItineraryContent :=
  { title := "Example", duration_days := 2,
    daily_plans :=
      [ { day_number := 1, day_date := ⟨2025, 9, 1⟩, theme := none,
          activities :=
            [ { time := "9:00 AM", name := "A", description := none, location := none,
                estimated_duration_minutes := some 30, transportation := none,
                cost_usd := some 10 },
              { time := "1:00 PM", name := "B", description := none, location := none,
                estimated_duration_minutes := some 60, transportation := none,
                cost_usd := none } ] },
        { day_number := 2, day_date := ⟨2025, 9, 2⟩, theme := none,
          activities :=
            [ { time := "10:00 AM", name := "C", description := none, location := none,
                estimated_duration_minutes := none, transportation := none,
                cost_usd := some 5 } ] } ],
    notes := none }

/-- C5: for every validated `ItineraryContent` the aggregates are the pure
sums of `cost_usd` (missing contributing 0) and of
`estimated_duration_minutes` (missing contributing 0) over all activities of
all days; the guest flow's truthiness-guarded loop computes the same totals;
and on the spec's two-day example (costs `[10.0, None, 5.0]`, durations
`[30, 60, None]`) the totals are cost 15.0 and duration 90. -/
theorem C5_aggregate_totals (content : ItineraryContent) :
    (calcTotals content =
      (((allActivities content).map (fun a => a.cost_usd.getD 0)).sum,
       ((allActivities content).map (fun a => a.estimated_duration_minutes.getD 0)).sum) ∧
     calcTotalsGuest content = calcTotals content) ∧
    calcTotals exTwoDayContent = (15, 90) := by
  refine ⟨⟨?_, ?_⟩, ?_⟩
  · unfold calcTotals allActivities
    rw [foldl_plans_totals]
    simp
  · unfold calcTotals calcTotalsGuest
    rw [foldl_plans_totals, foldl_plans_totals_guest]
  · unfold calcTotals
    rw [foldl_plans_totals]
    norm_num [exTwoDayContent]

/-! ## Section 5: the generation pipelines and the store
`generate_itinerary` (persisted) and `generate_itinerary_for_guest`
(stateless), plus the API layer of `backend/app/api/itineraries.py`.
The generative-model call and `json.loads` are external collaborators: the
pipelines take the decoded reply as `Option RawItineraryContent`
(`none` = `json.JSONDecodeError`); `datetime.now()` is the `now` / `today`
parameters.  The relational store is a pair of lists; committing an insert
appends the row. -/

/-- A stored `Itinerary` row (`backend/app/models/itinerary.py`): the
surrogate id stands in for both `id` and `generated_at`. -/
structure Itinerary where
  id : Nat
  trip_id : Nat
  user_id : Nat
  version : Nat
  plan_data : ItineraryContent
  total_estimated_cost : Rat
  total_estimated_duration_minutes : Int
deriving DecidableEq, Repr

structure Store where
  trips : List Trip
  itineraries : List Itinerary
deriving DecidableEq, Repr

/-- The failures of the generation pipeline: `ValueError` for a missing trip,
`ValueError` for undecodable JSON, `ValueError` with the violation list for a
schema failure, and the `ValueError` `strptime` raises on a malformed guest
date. -/
inductive GenError
  | tripNotFound (trip_id : Nat)
  | invalidJson
  | invalidSchema (errs : List String)
  | invalidDate
deriving DecidableEq, Repr

/-- Python `x or 0` applied to the `Optional[int]` scalar of the max-version
query: `None` and `0` both give `0`. -/
def pyOrZero (v : Option Nat) : Nat :=
  match v with
  | none => 0
  | some n => if n = 0 then 0 else n

/-- `db.query(func.max(Itinerary.version)).filter(Itinerary.trip_id == trip.id).scalar()`:
SQL `MAX` over the matching rows, `NULL` (`none`) when there are none. -/
def maxVersionScalar (itineraries : List Itinerary) (trip_id : Nat) : Option Nat :=
  ((itineraries.filter (fun i => decide (i.trip_id = trip_id))).map (fun i => i.version)).max?

/-- The versions already stored for a trip. -/
def tripVersions (db : Store) (trip_id : Nat) : List Nat :=
  (db.itineraries.filter (fun i => decide (i.trip_id = trip_id))).map (fun i => i.version)

/-- `generate_itinerary(db, trip_id)`: load the trip by id (no user filter at
this layer), build the prompt, consume the model reply, validate, aggregate,
compute `new_version = (max existing version or 0) + 1`, and commit the new
row.  `db.add` + `db.commit` of the insert is the append; `db.refresh`
returns the same row. -/
def generate_itinerary (db : Store) (trip_id : Nat) (now : Nat) (today : String)
    (parsed_response : Option RawItineraryContent) : Except GenError (Itinerary × Store) :=
  match db.trips.find? (fun t => decide (t.id = trip_id)) with
  | none => .error (.tripNotFound trip_id)
  | some trip =>
    let _prompt_content := generate_itinerary_prompt today trip.view
    match parsed_response with
    | none => .error .invalidJson
    | some raw =>
      match ItineraryContent.model_validate raw with
      | .error errs => .error (.invalidSchema errs)
      | .ok itinerary_content =>
          let totals := calcTotals itinerary_content
          let latest_version := pyOrZero (maxVersionScalar db.itineraries trip.id)
          let new_version := latest_version + 1
          let db_itinerary : Itinerary :=
            { id := now, trip_id := trip.id, user_id := trip.user_id,
              version := new_version, plan_data := itinerary_content,
              total_estimated_cost := totals.1,
              total_estimated_duration_minutes := totals.2 }
          .ok (db_itinerary, { db with itineraries := db.itineraries ++ [db_itinerary] })

theorem pyOrZero_some (n : Nat) : pyOrZero (some n) = n := by
  unfold pyOrZero
  by_cases h : n = 0 <;> simp [h]

theorem foldl_max_le (as : List Nat) (a : Nat) :
    a ≤ as.foldl max a ∧ ∀ v ∈ as, v ≤ as.foldl max a := by
  induction as generalizing a with
  | nil => simp
  | cons b bs ih =>
    have h := ih (max a b)
    refine ⟨le_trans (le_max_left a b) h.1, ?_⟩
    intro v hv
    rcases List.mem_cons.mp hv with rfl | hv
    · exact le_trans (le_max_right a v) h.1
    · exact h.2 v hv

theorem foldl_max_mem (as : List Nat) (a : Nat) :
    as.foldl max a = a ∨ as.foldl max a ∈ as := by
  induction as generalizing a with
  | nil => simp
  | cons b bs ih =>
    rcases ih (max a b) with h | h
    · rcases max_choice a b with hm | hm
      · left
        rw [List.foldl_cons, h, hm]
      · right
        rw [List.foldl_cons, h, hm]
        exact List.mem_cons_self b bs
    · right
      exact List.mem_cons_of_mem b h

theorem max?_spec (l : List Nat) (m : Nat) (h : l.max? = some m) :
    m ∈ l ∧ ∀ v ∈ l, v ≤ m := by
  cases l with
  | nil => simp [List.max?] at h
  | cons a as =>
    have hm : m = as.foldl max a := by
      simp [List.max?] at h
      omega
    subst hm
    constructor
    · rcases foldl_max_mem as a with h1 | h1
      · rw [h1]
        exact List.mem_cons_self a as
      · exact List.mem_cons_of_mem a h1
    · intro v hv
      rcases List.mem_cons.mp hv with rfl | hv
      · exact (foldl_max_le as v).1
      · exact (foldl_max_le as a).2 v hv

theorem max?_isSome_of_ne_nil (l : List Nat) (h : l ≠ []) : ∃ m, l.max? = some m := by
  cases l with
  | nil => exact absurd rfl h
  | cons a as => exact ⟨as.foldl max a, rfl⟩

/-- C6: every successfully persisted generation stores and returns a row
whose version is one more than the maximum version already stored for that
trip, and version 1 when the trip has no prior itinerary; the new store is
the old one with exactly the new row appended. -/
theorem C6_versioning (db : Store) (trip_id now : Nat) (today : String)
    (parsed : Option RawItineraryContent) (itin : Itinerary) (db' : Store)
    (h : generate_itinerary db trip_id now today parsed = .ok (itin, db')) :
    (tripVersions db trip_id = [] → itin.version = 1) ∧
    (∀ v ∈ tripVersions db trip_id, v < itin.version) ∧
    (tripVersions db trip_id ≠ [] →
      ∃ m ∈ tripVersions db trip_id, itin.version = m + 1 ∧
        ∀ v ∈ tripVersions db trip_id, v ≤ m) ∧
    db'.itineraries = db.itineraries ++ [itin] := by
  unfold generate_itinerary at h
  cases hf : db.trips.find? (fun t => decide (t.id = trip_id)) with
  | none =>
    rw [hf] at h
    simp at h
  | some trip =>
    rw [hf] at h
    dsimp only at h
    have htid : trip.id = trip_id := by
      have := List.find?_some hf
      exact of_decide_eq_true this
    cases parsed with
    | none => simp at h
    | some raw =>
      dsimp only at h
      cases hv : ItineraryContent.model_validate raw with
      | error errs =>
        rw [hv] at h
        simp at h
      | ok content =>
        rw [hv] at h
        dsimp only at h
        rw [Except.ok.injEq, Prod.mk.injEq] at h
        obtain ⟨hrec, hdb⟩ := h
        have hver : itin.version = pyOrZero ((tripVersions db trip_id).max?) + 1 := by
          rw [← hrec, ← htid]
          rfl
        refine ⟨?_, ?_, ?_, ?_⟩
        · intro hnil
          rw [hver, hnil]
          rfl
        · intro v hv'
          obtain ⟨m, hm⟩ := max?_isSome_of_ne_nil _ (List.ne_nil_of_mem hv')
          have hs := max?_spec _ m hm
          rw [hver, hm, pyOrZero_some]
          exact Nat.lt_succ_of_le (hs.2 v hv')
        · intro hne
          obtain ⟨m, hm⟩ := max?_isSome_of_ne_nil _ hne
          have hs := max?_spec _ m hm
          refine ⟨m, hs.1, ?_, hs.2⟩
          rw [hver, hm, pyOrZero_some]
        · rw [← hdb, ← hrec]

/-- The response dictionary `generate_itinerary_for_guest` returns: the
`Itinerary`-shaped document with synthetic identifiers (`trip_id = 0`,
`user_id = 0`, a timestamp-derived fake `id`). -/
structure GuestItineraryResponse where
  id : Nat
  trip_id : Nat
  user_id : Nat
  version : Nat
  plan_data : ItineraryContent
  total_estimated_cost : Rat
  total_estimated_duration_minutes : Int
deriving DecidableEq, Repr

/-- `generate_itinerary_for_guest(trip_data)`: wrap the raw guest fields,
build the same prompt, consume the model reply, validate, aggregate with the
truthiness-guarded loop, and return the document with `version = 1` —
touching no database at any point. -/
def generate_itinerary_for_guest (trip_data : GuestTripRequest) (now : Nat) (today : String)
    (parsed_response : Option RawItineraryContent) : Except GenError GuestItineraryResponse :=
  match GuestTripWrapper trip_data with
  | none => .error .invalidDate
  | some mock_trip =>
    let _prompt_content := generate_itinerary_prompt today mock_trip
    match parsed_response with
    | none => .error .invalidJson
    | some raw =>
      match ItineraryContent.model_validate raw with
      | .error errs => .error (.invalidSchema errs)
      | .ok itinerary_content =>
          let totals := calcTotalsGuest itinerary_content
          .ok { id := now, trip_id := 0, user_id := 0, version := 1,
                plan_data := itinerary_content,
                total_estimated_cost := totals.1,
                total_estimated_duration_minutes := totals.2 }

/-- The guest endpoint `generate_guest_itinerary` of
`backend/app/api/itineraries.py`: it has no database dependency at all (no
`db` parameter, no session); the store is threaded through here unchanged
solely to state that frame property. -/
def generate_guest_itinerary (db : Store) (trip_data : GuestTripRequest) (now : Nat)
    (today : String) (parsed_response : Option RawItineraryContent) :
    Except GenError GuestItineraryResponse × Store :=
  (generate_itinerary_for_guest trip_data now today parsed_response, db)

/-- C7: every guest generation leaves the store completely unchanged (no
itinerary row is written), and every document it returns carries
`version = 1`, regardless of the trip fields or the model response. -/
theorem C7_guest_stateless (db : Store) (g : GuestTripRequest) (now : Nat)
    (today : String) (parsed : Option RawItineraryContent) :
    (generate_guest_itinerary db g now today parsed).2 = db ∧
    (∀ r, (generate_guest_itinerary db g now today parsed).1 = .ok r →
      r.version = 1) := by
  refine ⟨rfl, ?_⟩
  intro r hr
  unfold generate_guest_itinerary generate_itinerary_for_guest at hr
  dsimp only at hr
  cases hw : GuestTripWrapper g with
  | none =>
    rw [hw] at hr
    simp at hr
  | some mock_trip =>
    rw [hw] at hr
    dsimp only at hr
    cases parsed with
    | none => simp at hr
    | some raw =>
      dsimp only at hr
      cases hv : ItineraryContent.model_validate raw with
      | error errs =>
        rw [hv] at hr
        simp at hr
      | ok content =>
        rw [hv] at hr
        dsimp only at hr
        rw [Except.ok.injEq] at hr
        rw [← hr]

/-- The HTTP-level failures of `POST /itineraries/generate/{trip_id}`:
404 when the trip is absent or not owned by the caller (one query, one fixed
detail string for both situations), 400 for the `ValueError`s of the service
layer. -/
inductive ApiError
  | notFound (detail : String)
  | badRequest (e : GenError)
deriving DecidableEq, Repr

/-- `generate_trip_itinerary(trip_id, current_user, db)`: first checks
`Trip.id == trip_id AND Trip.user_id == current_user.id` in one query and
answers the fixed 404 detail when nothing matches — whether the trip does not
exist at all or belongs to another user — then delegates to
`generate_itinerary`, mapping its `ValueError`s to 400. -/
def generate_trip_itinerary (db : Store) (current_user_id trip_id now : Nat)
    (today : String) (parsed_response : Option RawItineraryContent) :
    Except ApiError (Itinerary × Store) :=
  match db.trips.find? (fun t => decide (t.id = trip_id ∧ t.user_id = current_user_id)) with
  | none => .error (.notFound "Trip not found or you do not have access to this trip.")
  | some _ =>
    match generate_itinerary db trip_id now today parsed_response with
    | .ok result => .ok result
    | .error e => .error (.badRequest e)

/-- C9: whenever no trip with the requested id is owned by the requesting
user, the persisted-generation endpoint fails with the one fixed 404
response — the identical error value whether no trip with that id exists at
all or a trip with that id exists but belongs to a different user. -/
theorem C9_not_found_indistinguishable (db : Store) (current_user_id trip_id now : Nat)
    (today : String) (parsed : Option RawItineraryContent) :
    ((∀ t ∈ db.trips, t.id ≠ trip_id) →
      generate_trip_itinerary db current_user_id trip_id now today parsed =
        .error (.notFound "Trip not found or you do not have access to this trip.")) ∧
    ((∀ t ∈ db.trips, t.id = trip_id → t.user_id ≠ current_user_id) →
      generate_trip_itinerary db current_user_id trip_id now today parsed =
        .error (.notFound "Trip not found or you do not have access to this trip.")) := by
  constructor
  · intro hno
    have hfind : db.trips.find?
        (fun t => decide (t.id = trip_id ∧ t.user_id = current_user_id)) = none := by
      rw [List.find?_eq_none]
      intro t ht
      simp only [decide_eq_true_eq]
      intro hand
      exact hno t ht hand.1
    unfold generate_trip_itinerary
    rw [hfind]
  · intro hno
    have hfind : db.trips.find?
        (fun t => decide (t.id = trip_id ∧ t.user_id = current_user_id)) = none := by
      rw [List.find?_eq_none]
      intro t ht
      simp only [decide_eq_true_eq]
      intro hand
      exact hno t ht hand.1 hand.2
    unfold generate_trip_itinerary
    rw [hfind]

/-! ## Section 6: trip updates
`backend/app/services/trip.py`, `update_trip`. -/

/-- `TripUpdate` (`backend/app/schemas/trip.py`): every field optional;
`none` here means "not supplied" (`model_dump(exclude_unset=True)` omits it).
Supplying an explicit JSON `null` for a nullable field is not distinguished
from supplying a value — the claim concerns which supplied fields are
applied and which are discarded. -/
structure TripUpdate where
  name : Option String
  city : Option String
  stay_address : Option String
  start_date : Option PyDate
  end_date : Option PyDate
  num_travelers : Option Nat
  budget_per_person : Option Rat
  activity_preferences : Option (List String)
deriving DecidableEq, Repr

/-- `update_data = trip_update.model_dump(exclude_unset=True)` followed by
`update_data.pop("city", None)` and `update_data.pop("stay_address", None)`:
the supplied-field set with the two immutable fields silently removed (not
rejected). -/
def poppedUpdateData (trip_update : TripUpdate) : TripUpdate :=
  { trip_update with city := none, stay_address := none }

/-- The `for key, value in update_data.items(): setattr(db_trip, key, value)`
loop: every remaining supplied field overwrites the stored value, all other
fields keep it. -/
def applyUpdateData (db_trip : Trip) (u : TripUpdate) : Trip :=
  { db_trip with
    name := u.name.getD db_trip.name,
    city := u.city.getD db_trip.city,
    stay_address := match u.stay_address with
      | some v => some v
      | none => db_trip.stay_address,
    start_date := u.start_date.getD db_trip.start_date,
    end_date := u.end_date.getD db_trip.end_date,
    num_travelers := u.num_travelers.getD db_trip.num_travelers,
    budget_per_person := match u.budget_per_person with
      | some v => some v
      | none => db_trip.budget_per_person,
    activity_preferences := match u.activity_preferences with
      | some v => some v
      | none => db_trip.activity_preferences }

/-- `update_trip(db, db_trip, trip_update)`: pop the immutable fields, apply
the rest, commit. -/
def update_trip (db_trip : Trip) (trip_update : TripUpdate) : Trip :=
  applyUpdateData db_trip (poppedUpdateData trip_update)

/-- C10: a trip update never changes `city` or `stay_address` — values
supplied for them are silently discarded, not rejected — while every other
supplied field is applied (and every unsupplied field keeps its stored
value). -/
theorem C10_update_discards_city_and_address (db_trip : Trip) (trip_update : TripUpdate) :
    ((update_trip db_trip trip_update).city = db_trip.city ∧
     (update_trip db_trip trip_update).stay_address = db_trip.stay_address) ∧
    ((update_trip db_trip trip_update).name = trip_update.name.getD db_trip.name ∧
     (update_trip db_trip trip_update).start_date
       = trip_update.start_date.getD db_trip.start_date ∧
     (update_trip db_trip trip_update).end_date
       = trip_update.end_date.getD db_trip.end_date ∧
     (update_trip db_trip trip_update).num_travelers
       = trip_update.num_travelers.getD db_trip.num_travelers ∧
     (update_trip db_trip trip_update).budget_per_person
       = (match trip_update.budget_per_person with
           | some v => some v
           | none => db_trip.budget_per_person) ∧
     (update_trip db_trip trip_update).activity_preferences
       = (match trip_update.activity_preferences with
           | some v => some v
           | none => db_trip.activity_preferences)) ∧
    ((update_trip db_trip trip_update).id = db_trip.id ∧
     (update_trip db_trip trip_update).user_id = db_trip.user_id) := by
  refine ⟨⟨rfl, rfl⟩, ⟨rfl, rfl, rfl, rfl, rfl, rfl⟩, rfl, rfl⟩

/-! ## Section 7: concrete instances -/

deriving instance DecidableEq for Except

/-- A model reply with commentary around a single JSON object:
`ab{c}d`. -/
def exModelReply : List Char := ['a', 'b', openBrace, 'c', closeBrace, 'd']

theorem C1_witness :
    extractJsonCandidate exModelReply = (exModelReply.drop 2).take 3 :=
  (C1_response_extractor exModelReply).1 2 4 (by decide) (by decide) (by decide)
    (by decide) (by decide) (by decide) (by decide)

/-- A minimal valid raw document (no costs or durations). -/
def exRawMinimal : RawItineraryContent :=
  { title := some "Minimal", duration_days := some 1,
    daily_plans := some
      [ { day_number := some 1, day_date := some ⟨2025, 9, 1⟩, theme := none,
          activities := some
            [ { time := some "9:00 AM", name := some "Stroll", description := none,
                location := none, estimated_duration_minutes := none,
                transportation := none, cost_usd := none } ] } ],
    notes := none }

/-- `exRawMinimal` after validation. -/
def exContentMinimal : ItineraryContent :=
  { title := "Minimal", duration_days := 1,
    daily_plans :=
      [ { day_number := 1, day_date := ⟨2025, 9, 1⟩, theme := none,
          activities :=
            [ { time := "9:00 AM", name := "Stroll", description := none,
                location := none, estimated_duration_minutes := none,
                transportation := none, cost_usd := none } ] } ],
    notes := none }

def exTrip6 : Trip :=
  { id := 1, user_id := 4, name := "Porto weekend", city := "Porto", stay_address := none,
    start_date := ⟨2025, 9, 1⟩, end_date := ⟨2025, 9, 1⟩, num_travelers := 1,
    budget_per_person := none, activity_preferences := none }

def exItinV1 : Itinerary :=
  { id := 3, trip_id := 1, user_id := 4, version := 1, plan_data := exContentMinimal,
    total_estimated_cost := 0, total_estimated_duration_minutes := 0 }

def exItinV2 : Itinerary :=
  { id := 7, trip_id := 1, user_id := 4, version := 2, plan_data := exContentMinimal,
    total_estimated_cost := 0, total_estimated_duration_minutes := 0 }

/-- A store holding one trip that already has a version-1 itinerary. -/
def exStore6 : Store := { trips := [exTrip6], itineraries := [exItinV1] }

def exStore6' : Store := { trips := [exTrip6], itineraries := [exItinV1, exItinV2] }

theorem C6_witness :
    (tripVersions exStore6 1 = [] → exItinV2.version = 1) ∧
    (∀ v ∈ tripVersions exStore6 1, v < exItinV2.version) ∧
    (tripVersions exStore6 1 ≠ [] →
      ∃ m ∈ tripVersions exStore6 1, exItinV2.version = m + 1 ∧
        ∀ v ∈ tripVersions exStore6 1, v ≤ m) ∧
    exStore6'.itineraries = exStore6.itineraries ++ [exItinV2] :=
  C6_versioning exStore6 1 7 "2026-01-01" (some exRawMinimal) exItinV2 exStore6' (by decide)

def exTrip8 : Trip :=
  { id := 2, user_id := 5, name := "Paris getaway", city := "Paris",
    stay_address := some "12 Rue Cler", start_date := ⟨2025, 9, 1⟩,
    end_date := ⟨2025, 9, 3⟩, num_travelers := 2, budget_per_person := some 50,
    activity_preferences := some ["museums", "food"] }

def exGuest8 : GuestTripRequest :=
  { name := "Paris getaway", city := "Paris", stay_address := some "12 Rue Cler",
    start_date := "2025-09-01", end_date := "2025-09-03", num_travelers := 2,
    budget_per_person := some 50, activity_preferences := ["museums", "food"] }

def exView8 : TripView :=
  { name := "Paris getaway", city := "Paris", stay_address := some "12 Rue Cler",
    start_date := ⟨2025, 9, 1⟩, end_date := ⟨2025, 9, 3⟩, num_travelers := 2,
    budget_per_person := some 50, activity_preferences := some ["museums", "food"] }

theorem C8_witness :
    generate_itinerary_prompt "2026-01-01" exView8
      = generate_itinerary_prompt "2026-01-01" exTrip8.view :=
  C8_guest_prompt_equivalence exTrip8 exGuest8 "2026-01-01" exView8 rfl rfl rfl
    (by decide) (by decide) rfl rfl rfl (by decide)

def exStore9a : Store :=
  { trips :=
      [ { id := 5, user_id := 1, name := "Lisbon", city := "Lisbon", stay_address := none,
          start_date := ⟨2025, 9, 1⟩, end_date := ⟨2025, 9, 2⟩, num_travelers := 1,
          budget_per_person := none, activity_preferences := none } ],
    itineraries := [] }

def exStore9b : Store :=
  { trips :=
      [ { id := 1, user_id := 2, name := "Lisbon", city := "Lisbon", stay_address := none,
          start_date := ⟨2025, 9, 1⟩, end_date := ⟨2025, 9, 2⟩, num_travelers := 1,
          budget_per_person := none, activity_preferences := none } ],
    itineraries := [] }

theorem C9_witness :
    generate_trip_itinerary exStore9a 1 1 0 "2026-01-01" none =
      .error (.notFound "Trip not found or you do not have access to this trip.") ∧
    generate_trip_itinerary exStore9b 1 1 0 "2026-01-01" none =
      .error (.notFound "Trip not found or you do not have access to this trip.") :=
  ⟨(C9_not_found_indistinguishable exStore9a 1 1 0 "2026-01-01" none).1 (by decide),
   (C9_not_found_indistinguishable exStore9b 1 1 0 "2026-01-01" none).2 (by decide)⟩

/-- A successful guest generation on concrete inputs: the pipeline is not
vacuous, and the returned document indeed carries `version = 1` with the
store untouched by construction. -/
theorem guest_generation_example :
    generate_itinerary_for_guest exGuest8 7 "2026-01-01" (some exRawMinimal) =
      .ok { id := 7, trip_id := 0, user_id := 0, version := 1,
            plan_data := exContentMinimal, total_estimated_cost := 0,
            total_estimated_duration_minutes := 0 } := by decide
